import Mathlib

/-!
Verification of the JobSpy MCP adapter (`src/jobspy_server.py`).

The adapter wraps one external collaborator, `scrape_jobs`, behind a tool
interface.  We shallowly embed the two tool functions, `search_jobs` and
`get_job_sites`.  The external scraping capability is a parameter of type
`ScrapeKwargs → Except String DataFrame`: `Except.error e` models the
collaborator raising a Python exception whose `str` form is `e` (in the
embedding the pure DataFrame-to-records conversion cannot itself raise, so
any failure inside the `try` block after the site check is carried by this
`Except`).  `searchJobsTrace` additionally records the list of collaborator
invocations, so that "no delegation occurs" is a provable statement.
-/

namespace JobspyServer

/-- A Python value that may occur in a cell of the scraped DataFrame.
Floats are modelled abstractly as a NaN flag plus a tag distinguishing
distinct float values; `isinstance(value, float) and str(value) == 'nan'`
in the source corresponds to the flag being `true`. -/
inductive PyValue where
  | vStr (s : String)
  | vInt (n : Int)
  | vFloat (isNaN : Bool) (tag : Nat)
  | vBool (b : Bool)
  | vNone
deriving DecidableEq, Repr

/-- The source test `isinstance(value, float) and str(value) == 'nan'`. -/
def isNaNFloat : PyValue → Bool
  | PyValue.vFloat nan _ => nan
  | _ => false

/-- One row of `jobs_df.to_dict('records')`: an ordered field-name/value
mapping (Python dicts preserve insertion order). -/
def JobRecord := List (String × PyValue)
deriving DecidableEq, Repr

/-- The tabular result of the collaborator, one `JobRecord` per row. -/
def DataFrame := List JobRecord
deriving DecidableEq, Repr

/-- The caller-supplied parameters of `search_jobs`, mirroring the Python
signature: `None`-able parameters are `Option`s, the rest carry the Python
defaults. -/
structure SearchRequest where
  search_term : String
  location : String := ""
  site_name : Option (List String) := Option.none
  results_wanted : Int := 20
  hours_old : Int := 72
  country_indeed : String := "USA"
  job_type : Option String := Option.none
  is_remote : Option Bool := Option.none
  distance : Int := 50
  linkedin_fetch_description : Bool := false
  offset : Int := 0
deriving DecidableEq, Repr

/-- The keyword-argument set assembled for the `scrape_jobs` call.  The
seven always-present keys are plain fields; the four conditionally added
keys are `Option`s, `Option.none` meaning the key is absent from `kwargs`. -/
structure ScrapeKwargs where
  site_name : List String
  search_term : String
  results_wanted : Int
  hours_old : Int
  country_indeed : String
  linkedin_fetch_description : Bool
  offset : Int
  location : Option String
  job_type : Option String
  is_remote : Option Bool
  distance : Option Int
deriving DecidableEq, Repr

/-- The `search_params` sub-dictionary of a successful result. -/
structure SearchParams where
  search_term : String
  location : String
  sites : List String
  results_wanted : Int
  hours_old : Int
deriving DecidableEq, Repr

/-- The dictionary returned by `search_jobs`: either the success shape
with `jobs`, `count` and `search_params` keys, or the failure shape with
`error` and `jobs` keys. -/
inductive SearchResult where
  | success (jobs : List JobRecord) (count : Nat) (search_params : SearchParams)
  | failure (error : String) (jobs : List JobRecord)
deriving DecidableEq, Repr

/-- Python's `str.lower()` on a site identifier, embedded as a map of
`Char.toLower` over the characters (the identifiers involved are ASCII). -/
def pyLower (s : String) : String := String.mk (s.data.map Char.toLower)

/-- Line 48 of the source: the default site list used when `site_name` is
`None`. -/
def defaultSites : List String := ["indeed", "linkedin", "zip_recruiter"]

/-- Line 51 of the source: the fixed list of valid site identifiers. -/
def valid_sites : List String := ["linkedin", "indeed", "zip_recruiter", "glassdoor", "google"]

/-- Lines 47-52 of the source: substitute the default list when
`site_name` is `None`, then keep exactly the entries whose lowercase form
is a valid site.  Note the kept entries are the caller's originals, not
their lowercase forms. -/
def effectiveSites (site_name : Option (List String)) : List String :=
  (match site_name with
    | Option.none => defaultSites
    | Option.some l => l).filter (fun site => valid_sites.contains (pyLower site))

/-- Lines 60-78 of the source: assemble the `kwargs` dictionary.  The
conditional keys follow Python truthiness tests: `if location:` and
`if job_type:` and `if distance:` are truthiness, `if is_remote is not
None:` is a `None` test. -/
def buildKwargs (req : SearchRequest) (sites : List String) : ScrapeKwargs :=
  { site_name := sites
    search_term := req.search_term
    results_wanted := req.results_wanted
    hours_old := req.hours_old
    country_indeed := req.country_indeed
    linkedin_fetch_description := req.linkedin_fetch_description
    offset := req.offset
    location := if req.location = "" then Option.none else Option.some req.location
    job_type :=
      match req.job_type with
      | Option.none => Option.none
      | Option.some jt => if jt = "" then Option.none else Option.some jt
    is_remote := req.is_remote
    distance := if req.distance = 0 then Option.none else Option.some req.distance }

/-- Lines 89-92 of the source, applied to one cell: a float whose string
form is `'nan'` becomes `None`; every other value is untouched. -/
def sanitizeValue (v : PyValue) : PyValue :=
  if isNaNFloat v then PyValue.vNone else v

/-- Lines 89-92 of the source, applied to one record: every NaN cell is
replaced by `None`; keys and order are untouched. -/
def sanitizeJob (job : JobRecord) : JobRecord :=
  job.map (fun kv => (kv.1, sanitizeValue kv.2))

/-- Lines 86-92 of the source: `to_dict('records')` followed by the NaN
clean-up loop over every record. -/
def sanitizeJobs (df : DataFrame) : List JobRecord :=
  df.map sanitizeJob

/-- Lines 43-112 of the source: the body of `search_jobs`, instrumented
with the list of collaborator invocations (second component).  The
`except Exception` handler at lines 108-112 is the `Except.error` branch:
the exception text becomes the `error` field and `jobs` is `[]`. -/
def searchJobsTrace (req : SearchRequest)
    (scrape : ScrapeKwargs → Except String DataFrame) :
    SearchResult × List ScrapeKwargs :=
  let sites := effectiveSites req.site_name
  if sites.isEmpty then
    (SearchResult.failure "No valid job sites provided" [], [])
  else
    let kwargs := buildKwargs req sites
    match scrape kwargs with
    | Except.error e => (SearchResult.failure e [], [kwargs])
    | Except.ok df =>
      let jobs := sanitizeJobs df
      (SearchResult.success jobs jobs.length
        { search_term := req.search_term
          location := req.location
          sites := sites
          results_wanted := req.results_wanted
          hours_old := req.hours_old }, [kwargs])

/-- The value `search_jobs` returns to the transport layer. -/
def search_jobs (req : SearchRequest)
    (scrape : ScrapeKwargs → Except String DataFrame) : SearchResult :=
  (searchJobsTrace req scrape).1

/-- One entry of the static site catalog. -/
structure SiteEntry where
  name : String
  description : String
deriving DecidableEq, Repr

/-- The dictionary returned by `get_job_sites`. -/
structure SiteCatalog where
  sites : List SiteEntry
  note : String
deriving DecidableEq, Repr

/-- Lines 115-146 of the source: `get_job_sites` takes no parameters and
returns this fixed catalog. -/
def get_job_sites : SiteCatalog :=
  { sites :=
      [ { name := "linkedin"
          description := "LinkedIn Jobs - Professional networking platform with extensive job listings" }
      , { name := "indeed"
          description := "Indeed - One of the largest job search engines worldwide" }
      , { name := "zip_recruiter"
          description := "ZipRecruiter - Job search platform with smart matching technology" }
      , { name := "glassdoor"
          description := "Glassdoor - Job listings with company reviews and salary information" }
      , { name := "google"
          description := "Google Jobs - Aggregated job listings from across the web" } ]
    note := "You can search multiple sites simultaneously by passing a list of site names" }

/-! Helper lemmas shared by several claims. -/

/-- The site check at line 54 never passes with an empty effective list:
if the effective list is nonempty its `isEmpty` test is `false`. -/
theorem effectiveSites_isEmpty_false {req : SearchRequest}
    (h : effectiveSites req.site_name ≠ []) :
    (effectiveSites req.site_name).isEmpty = false := by
  cases hh : effectiveSites req.site_name with
  | nil => exact absurd hh h
  | cons a l => rfl

/-- Every collaborator invocation recorded by `searchJobsTrace` carries
exactly the kwargs built from the request and the effective site list. -/
theorem calls_eq_buildKwargs {req : SearchRequest}
    {scrape : ScrapeKwargs → Except String DataFrame} {k : ScrapeKwargs}
    (h : (searchJobsTrace req scrape).2 = [k]) :
    k = buildKwargs req (effectiveSites req.site_name) := by
  unfold searchJobsTrace at h
  by_cases he : (effectiveSites req.site_name).isEmpty
  · simp [he] at h
  · simp only [he, if_neg, Bool.false_eq_true, not_false_eq_true, if_false] at h
    cases hscr : scrape (buildKwargs req (effectiveSites req.site_name)) with
    | error e => rw [hscr] at h; simpa using h.symm
    | ok df => rw [hscr] at h; simpa using h.symm

/-- Inversion of a successful result: the success shape arises only in the
branch at lines 96-106, which fixes every component. -/
theorem success_inversion {req : SearchRequest}
    {scrape : ScrapeKwargs → Except String DataFrame}
    {jobs : List JobRecord} {count : Nat} {params : SearchParams}
    (h : search_jobs req scrape = SearchResult.success jobs count params) :
    count = jobs.length ∧
    params = SearchParams.mk req.search_term req.location
      (effectiveSites req.site_name) req.results_wanted req.hours_old ∧
    effectiveSites req.site_name ≠ [] := by
  unfold search_jobs searchJobsTrace at h
  by_cases he : (effectiveSites req.site_name).isEmpty
  · simp [he] at h
  · simp only [he, Bool.false_eq_true, not_false_eq_true, if_false] at h
    cases hscr : scrape (buildKwargs req (effectiveSites req.site_name)) with
    | error e => rw [hscr] at h; simp at h
    | ok df =>
      rw [hscr] at h
      simp only [SearchResult.success.injEq] at h
      obtain ⟨hj, hc, hp⟩ := h
      subst hj
      refine ⟨hc.symm, hp.symm, ?_⟩
      intro hnil
      rw [hnil] at he
      exact he rfl

/-! Claim theorems. -/

/-- C1: for every input and every failure raised by the collaborator
during delegation (which in this embedding also carries any failure of the
subsequent conversion, since the pure conversion cannot itself raise),
`search_jobs` catches the failure and returns the mapping with `error`
set to the text form of the failure and `jobs` set to `[]`.  No failure
propagates: `search_jobs` is a total function into `SearchResult`. -/
theorem C1_failures_caught (req : SearchRequest)
    (scrape : ScrapeKwargs → Except String DataFrame) (e : String)
    (hsites : effectiveSites req.site_name ≠ [])
    (hraise : scrape (buildKwargs req (effectiveSites req.site_name)) = Except.error e) :
    search_jobs req scrape = SearchResult.failure e [] := by
  have he := effectiveSites_isEmpty_false hsites
  unfold search_jobs searchJobsTrace
  simp [he, hraise]

/-- Witness for C1 at a concrete request and a collaborator that raises. -/
theorem C1_failures_caught_witness :
    search_jobs { search_term := "x" } (fun _ => Except.error "network down") =
      SearchResult.failure "network down" [] :=
  C1_failures_caught { search_term := "x" } (fun _ => Except.error "network down")
    "network down" (by decide) rfl

/-- C4: whenever the filtered site list is empty, `search_jobs` returns
the fixed error mapping immediately and the collaborator is never invoked
(the recorded invocation list is empty). -/
theorem C4_empty_sites_no_delegation (req : SearchRequest)
    (scrape : ScrapeKwargs → Except String DataFrame)
    (h : effectiveSites req.site_name = []) :
    searchJobsTrace req scrape =
      (SearchResult.failure "No valid job sites provided" [], []) := by
  unfold searchJobsTrace
  simp [h]

/-- Witness for C4 at a request whose only site is unrecognized. -/
theorem C4_empty_sites_no_delegation_witness :
    searchJobsTrace { search_term := "x", site_name := Option.some ["monster"] }
        (fun _ => Except.ok []) =
      (SearchResult.failure "No valid job sites provided" [], []) :=
  C4_empty_sites_no_delegation
    { search_term := "x", site_name := Option.some ["monster"] }
    (fun _ => Except.ok []) (by decide)

/-- C8: `get_job_sites` takes no inputs and is a constant, so every call
returns the identical fixed catalog; it has exactly five entries whose
names are linkedin, indeed, zip_recruiter, glassdoor and google in that
order, each entry carries a nonempty description, and the usage note is a
fixed nonempty string. -/
theorem C8_fixed_catalog :
    get_job_sites.sites.length = 5 ∧
    get_job_sites.sites.map SiteEntry.name =
      ["linkedin", "indeed", "zip_recruiter", "glassdoor", "google"] ∧
    get_job_sites.sites.all (fun entry => entry.description != "") = true ∧
    get_job_sites.note ≠ "" := by
  refine ⟨rfl, rfl, rfl, ?_⟩
  decide

/-- Counting survivors of a filter: an element occurs in the filtered list
as often as in the original when it passes the predicate, and never
otherwise. -/
theorem count_filter_ite (p : String → Bool) (l : List String) (s : String) :
    (l.filter p).count s = if p s then l.count s else 0 := by
  induction l with
  | nil => simp
  | cons a l ih =>
    by_cases hpa : p a = true
    · rw [List.filter_cons_of_pos hpa]
      by_cases has : a = s
      · subst has
        simp [List.count_cons_self, ih, hpa]
      · rw [List.count_cons_of_ne, List.count_cons_of_ne, ih] <;>
          exact fun hh => has hh.symm
    · rw [List.filter_cons_of_neg (by simpa using hpa)]
      by_cases has : a = s
      · subst has
        simp [ih, hpa]
      · rw [List.count_cons_of_ne, ih]
        exact fun hh => has hh.symm

/-- C2 counterexample: with `site_name` supplied as the empty sequence the
code does not substitute the default sequence — line 47 tests `is None`
only — so the call returns the "No valid job sites provided" error with no
delegation, and the effective site list is empty rather than the default. -/
theorem C2_counterexample :
    searchJobsTrace { search_term := "x", site_name := Option.some [] }
        (fun _ => Except.ok []) =
      (SearchResult.failure "No valid job sites provided" [], []) ∧
    (effectiveSites (Option.some ([] : List String)) == defaultSites) = false := by
  constructor
  · decide
  · decide

/-- C2 as amended: the default ordered sequence [indeed, linkedin,
zip_recruiter] is used exactly when `site_name` is absent (`None`); an
empty caller-supplied sequence is not defaulted and instead produces the
"No valid job sites provided" error result with no delegation. -/
theorem C2_default_only_when_absent (req : SearchRequest)
    (scrape : ScrapeKwargs → Except String DataFrame) :
    (req.site_name = Option.none →
      (searchJobsTrace req scrape).2.map ScrapeKwargs.site_name = [defaultSites]) ∧
    (req.site_name = Option.some [] →
      searchJobsTrace req scrape =
        (SearchResult.failure "No valid job sites provided" [], [])) := by
  constructor
  · intro habs
    have hes : effectiveSites req.site_name = defaultSites := by
      rw [habs]; decide
    unfold searchJobsTrace
    rw [hes]
    simp only [show defaultSites.isEmpty = false from rfl, Bool.false_eq_true,
      not_false_eq_true, if_false]
    cases hscr : scrape (buildKwargs req defaultSites) with
    | error e => simp [buildKwargs]
    | ok df => simp [buildKwargs]
  · intro hempty
    have hes : effectiveSites req.site_name = [] := by
      rw [hempty]; decide
    unfold searchJobsTrace
    rw [hes]
    rfl

/-- Witness for C2 as amended: a request with `site_name` absent delegates
once with the default site list, and one with an empty list gets the
error shape with no delegation. -/
theorem C2_default_only_when_absent_witness :
    (searchJobsTrace { search_term := "x" } (fun _ => Except.ok [])).2.map
        ScrapeKwargs.site_name = [defaultSites] ∧
    searchJobsTrace { search_term := "x", site_name := Option.some [] }
        (fun _ => Except.ok ([[("title", PyValue.vStr "RN")]] : DataFrame)) =
      (SearchResult.failure "No valid job sites provided" [], []) :=
  ⟨(C2_default_only_when_absent { search_term := "x" } (fun _ => Except.ok [])).1 rfl,
   (C2_default_only_when_absent { search_term := "x", site_name := Option.some [] }
      (fun _ => Except.ok ([[("title", PyValue.vStr "RN")]] : DataFrame))).2 rfl⟩

/-- C3 counterexample: the filter at line 52 keeps the caller's original
spelling, not the lowercase canonical form — the comprehension keeps
`site`, not `site.lower()` — so for input ["LinkedIn"] the filtered
sequence is ["LinkedIn"] and does not contain "linkedin". -/
theorem C3_counterexample :
    effectiveSites (Option.some ["LinkedIn"]) = ["LinkedIn"] ∧
    (effectiveSites (Option.some ["LinkedIn"])).contains "linkedin" = false := by
  constructor
  · decide
  · decide

/-- C3 as amended: for every caller-supplied `site_name` sequence, the
filtered sequence keeps, for each element whose lowercase form is a member
of the valid-site set, that element verbatim in its original case, exactly
once per occurrence and in the caller's order (it is a sublist of the
input), and every element whose lowercase form is not valid is dropped
without error. -/
theorem C3_filter_case_preserving (l : List String) :
    (effectiveSites (Option.some l)).Sublist l ∧
    ∀ s : String, (effectiveSites (Option.some l)).count s =
      if valid_sites.contains (pyLower s) then l.count s else 0 := by
  constructor
  · exact List.filter_sublist l
  · intro s
    exact count_filter_ite (fun site => valid_sites.contains (pyLower site)) l s

/-- C5: every recorded delegation carries the seven always-included
arguments verbatim, and each of the four conditional arguments is present
exactly under the source's condition: truthiness (`if location:`,
`if job_type:`, `if distance:`) for location, job_type and distance, and a
`None` test (`if is_remote is not None:`) for is_remote — matching the
spec's per-field "truthy/non-null" reading and its scenario in which
`location: ""` and `is_remote: null` are omitted.  Absent fields are
`Option.none`, i.e. the key is not forwarded at all. -/
theorem C5_delegation_arguments (req : SearchRequest)
    (scrape : ScrapeKwargs → Except String DataFrame) (k : ScrapeKwargs)
    (h : (searchJobsTrace req scrape).2 = [k]) :
    k.site_name = effectiveSites req.site_name ∧
    k.search_term = req.search_term ∧
    k.results_wanted = req.results_wanted ∧
    k.hours_old = req.hours_old ∧
    k.country_indeed = req.country_indeed ∧
    k.linkedin_fetch_description = req.linkedin_fetch_description ∧
    k.offset = req.offset ∧
    (k.location = Option.none ↔ req.location = "") ∧
    (req.location ≠ "" → k.location = Option.some req.location) ∧
    (k.job_type = Option.none ↔
      (req.job_type = Option.none ∨ req.job_type = Option.some "")) ∧
    (∀ jt : String, req.job_type = Option.some jt → jt ≠ "" →
      k.job_type = Option.some jt) ∧
    k.is_remote = req.is_remote ∧
    (k.distance = Option.none ↔ req.distance = 0) ∧
    (req.distance ≠ 0 → k.distance = Option.some req.distance) := by
  have hk := calls_eq_buildKwargs h
  subst hk
  refine ⟨rfl, rfl, rfl, rfl, rfl, rfl, rfl, ?_, ?_, ?_, ?_, rfl, ?_, ?_⟩
  · by_cases hl : req.location = "" <;> simp [buildKwargs, hl]
  · intro hl; simp [buildKwargs, hl]
  · cases hjt : req.job_type with
    | none => simp [buildKwargs, hjt]
    | some jt => by_cases hjt2 : jt = "" <;> simp [buildKwargs, hjt, hjt2]
  · intro jt hjt hjt2
    simp [buildKwargs, hjt, hjt2]
  · by_cases hd : req.distance = 0 <;> simp [buildKwargs, hd]
  · intro hd; simp [buildKwargs, hd]

/-- A concrete request exercising all four conditional fields: location
empty (falsy), job_type supplied, is_remote supplied as `false`, distance
zero (falsy). -/
def reqW5 : SearchRequest :=
  { search_term := "nurse", location := "", site_name := Option.some ["indeed"]
    job_type := Option.some "fulltime", is_remote := Option.some false, distance := 0 }

/-- The kwargs the adapter assembles for `reqW5`. -/
def kW5 : ScrapeKwargs :=
  { site_name := ["indeed"], search_term := "nurse", results_wanted := 20
    hours_old := 72, country_indeed := "USA", linkedin_fetch_description := false
    offset := 0, location := Option.none, job_type := Option.some "fulltime"
    is_remote := Option.some false, distance := Option.none }

/-- Witness for C5 at `reqW5`. -/
theorem C5_delegation_arguments_witness :
    kW5.site_name = effectiveSites reqW5.site_name ∧
    kW5.search_term = reqW5.search_term ∧
    kW5.results_wanted = reqW5.results_wanted ∧
    kW5.hours_old = reqW5.hours_old ∧
    kW5.country_indeed = reqW5.country_indeed ∧
    kW5.linkedin_fetch_description = reqW5.linkedin_fetch_description ∧
    kW5.offset = reqW5.offset ∧
    (kW5.location = Option.none ↔ reqW5.location = "") ∧
    (reqW5.location ≠ "" → kW5.location = Option.some reqW5.location) ∧
    (kW5.job_type = Option.none ↔
      (reqW5.job_type = Option.none ∨ reqW5.job_type = Option.some "")) ∧
    (∀ jt : String, reqW5.job_type = Option.some jt → jt ≠ "" →
      kW5.job_type = Option.some jt) ∧
    kW5.is_remote = reqW5.is_remote ∧
    (kW5.distance = Option.none ↔ reqW5.distance = 0) ∧
    (reqW5.distance ≠ 0 → kW5.distance = Option.some reqW5.distance) :=
  C5_delegation_arguments reqW5 (fun _ => Except.ok []) kW5 (by decide)

/-- Mapping a function over a list relates each element to its image. -/
theorem forall₂_map_self {α β : Type} (f : α → β) (R : α → β → Prop)
    (h : ∀ a, R a (f a)) (l : List α) : List.Forall₂ R l (l.map f) := by
  induction l with
  | nil => exact List.Forall₂.nil
  | cons a t ih => exact List.Forall₂.cons (h a) ih

/-- C6: on a successful delegation the returned jobs are exactly the raw
records with every NaN float replaced by null and nothing else changed:
record for record and field for field, the key is kept verbatim and the
value is kept verbatim unless it is a NaN float, in which case it becomes
`None`. -/
theorem C6_nan_to_null (req : SearchRequest)
    (scrape : ScrapeKwargs → Except String DataFrame) (df : DataFrame)
    (hsites : effectiveSites req.site_name ≠ [])
    (hok : scrape (buildKwargs req (effectiveSites req.site_name)) = Except.ok df) :
    search_jobs req scrape =
      SearchResult.success (sanitizeJobs df) (sanitizeJobs df).length
        (SearchParams.mk req.search_term req.location (effectiveSites req.site_name)
          req.results_wanted req.hours_old) ∧
    List.Forall₂ (fun (orig cleaned : JobRecord) =>
        List.Forall₂ (fun (kv ckv : String × PyValue) =>
          ckv.1 = kv.1 ∧
          ckv.2 = if isNaNFloat kv.2 then PyValue.vNone else kv.2) orig cleaned)
      df (sanitizeJobs df) := by
  constructor
  · have he := effectiveSites_isEmpty_false hsites
    unfold search_jobs searchJobsTrace
    simp [he, hok]
  · refine forall₂_map_self _ _ ?_ df
    intro job
    refine forall₂_map_self _ _ ?_ job
    intro kv
    exact ⟨rfl, rfl⟩

/-- A concrete raw tabular result with a NaN salary in the first row. -/
def dfW6 : DataFrame :=
  [ [("title", PyValue.vStr "RN"), ("salary", PyValue.vFloat true 0)]
  , [("salary", PyValue.vFloat false 1)]
  , [("hours", PyValue.vInt 3)] ]

/-- A concrete request naming one valid site. -/
def reqW6 : SearchRequest := { search_term := "x", site_name := Option.some ["indeed"] }

/-- A collaborator returning `dfW6`. -/
def scrW6 : ScrapeKwargs → Except String DataFrame := fun _ => Except.ok dfW6

/-- Witness for C6 at `reqW6` and `dfW6`. -/
theorem C6_nan_to_null_witness :
    search_jobs reqW6 scrW6 =
      SearchResult.success (sanitizeJobs dfW6) (sanitizeJobs dfW6).length
        (SearchParams.mk reqW6.search_term reqW6.location
          (effectiveSites reqW6.site_name) reqW6.results_wanted reqW6.hours_old) ∧
    List.Forall₂ (fun (orig cleaned : JobRecord) =>
        List.Forall₂ (fun (kv ckv : String × PyValue) =>
          ckv.1 = kv.1 ∧
          ckv.2 = if isNaNFloat kv.2 then PyValue.vNone else kv.2) orig cleaned)
      dfW6 (sanitizeJobs dfW6) :=
  C6_nan_to_null reqW6 scrW6 dfW6 (by decide) rfl

/-- C7: every successful result carries `count` equal to the length of its
jobs sequence and echoes in `search_params` the original search term and
location (even when empty), the filtered site list, and the requested
results_wanted and hours_old. -/
theorem C7_success_shape (req : SearchRequest)
    (scrape : ScrapeKwargs → Except String DataFrame)
    (jobs : List JobRecord) (count : Nat) (params : SearchParams)
    (h : search_jobs req scrape = SearchResult.success jobs count params) :
    count = jobs.length ∧
    params = SearchParams.mk req.search_term req.location
      (effectiveSites req.site_name) req.results_wanted req.hours_old :=
  ⟨(success_inversion h).1, (success_inversion h).2.1⟩

/-- A concrete request naming one valid site, for success-shape witnesses. -/
def reqC7 : SearchRequest := { search_term := "x", site_name := Option.some ["indeed"] }

/-- Witness for C7 at a concrete successful call. -/
theorem C7_success_shape_witness :
    (0 = ([] : List JobRecord).length) ∧
    SearchParams.mk "x" "" ["indeed"] 20 72 =
      SearchParams.mk reqC7.search_term reqC7.location
        (effectiveSites reqC7.site_name) reqC7.results_wanted reqC7.hours_old :=
  C7_success_shape reqC7 (fun _ => Except.ok []) [] 0
    (SearchParams.mk "x" "" ["indeed"] 20 72) (by decide)

/-- C9: when the caller supplies `is_remote` as any non-null boolean —
including `false` — the delegation carries that exact value; `is_remote`
is dropped only when it is null, so non-remote filtering is expressible. -/
theorem C9_is_remote_false_forwarded (req : SearchRequest)
    (scrape : ScrapeKwargs → Except String DataFrame) (k : ScrapeKwargs) (b : Bool)
    (hb : req.is_remote = Option.some b)
    (h : (searchJobsTrace req scrape).2 = [k]) :
    k.is_remote = Option.some b := by
  have hk := calls_eq_buildKwargs h
  subst hk
  simp [buildKwargs, hb]

/-- A concrete request with `is_remote` supplied as `false`. -/
def reqC9 : SearchRequest := { search_term := "x", is_remote := Option.some false }

/-- Witness for C9 at `reqC9`. -/
theorem C9_is_remote_false_forwarded_witness :
    (buildKwargs reqC9 defaultSites).is_remote = Option.some false :=
  C9_is_remote_false_forwarded reqC9 (fun _ => Except.ok [])
    (buildKwargs reqC9 defaultSites) false rfl (by decide)

/-- C10: every successful result has a nonempty `search_params.sites`
list, because the empty-filter case returns the error shape before any
delegation can produce a success. -/
theorem C10_success_nonempty_sites (req : SearchRequest)
    (scrape : ScrapeKwargs → Except String DataFrame)
    (jobs : List JobRecord) (count : Nat) (params : SearchParams)
    (h : search_jobs req scrape = SearchResult.success jobs count params) :
    params.sites ≠ [] := by
  obtain ⟨-, hp, hne⟩ := success_inversion h
  rw [hp]
  exact hne

/-- Witness for C10 at a concrete successful call. -/
theorem C10_success_nonempty_sites_witness :
    (SearchParams.mk "x" "" ["indeed"] 20 72).sites ≠ [] :=
  C10_success_nonempty_sites reqC7 (fun _ => Except.ok []) [] 0
    (SearchParams.mk "x" "" ["indeed"] 20 72) (by decide)

end JobspyServer
